import Mathlib

/-!
Verification of the statistics/reporting core of the personal task-tracking
backend (`controllers/stats_controller.go` plus the data model in
`models`).

Modelling conventions:
* Timestamps are seconds as `Int` (the store's DATETIME columns have second
  precision); `dateOf t` is the calendar-day index of a timestamp, so the
  string `Format("2006-01-02")` used by the Go code corresponds injectively
  to `dateOf`.
* SQL `COUNT` over a `WHERE` clause is embedded as the length of a `List.filter`
  over the store; SQL three-valued logic on NULL columns (`due_date < ?`,
  `completed_at >= ?`, `DATE(completed_at) = ?` with NULL) makes the row not
  match, which is embedded by matching on the `Option` and returning `false`
  for `none`.
* `float64` rate values are embedded as `ℚ`: every rate in the source is a
  single division of two counts multiplied by 100, which is exact in `ℚ`.
* Go `int64` counters are embedded as `Nat` (counts of list elements).
* The database session is embedded as explicit state passing
  (`StoreM α = Store → α × Store`); each query primitive is a read.
-/

namespace TaskStats

/-- Task model, from `models` (src/unnamed/part_001, lines 60-79).
`status ∈ {pending, in_progress, completed}`, `priority ∈ {low, medium,
high, urgent}` are stored as strings, exactly as the enum columns do. -/
structure Task where
  id : Nat
  title : String
  status : String
  priority : String
  dueDate : Option Int
  completedAt : Option Int
  userId : Nat
  categoryId : Option Nat
  projectId : Option Nat
  createdAt : Int
deriving Repr, DecidableEq

/-- Category model (src/unnamed/part_001, lines 26-39), the fields the stats
core reads. -/
structure Category where
  id : Nat
  name : String
  userId : Nat
deriving Repr, DecidableEq

/-- Project model (src/unnamed/part_001, lines 42-57), the fields the stats
core reads. -/
structure Project where
  id : Nat
  name : String
  status : String
  userId : Nat
deriving Repr, DecidableEq

/-- The read-only store the reports aggregate over. -/
structure Store where
  tasks : List Task
  categories : List Category
  projects : List Project
deriving Repr, DecidableEq

/-! ## Time: seconds, days, weekdays, Gregorian months

Second 0 is 00:00:00 on January 1 of year 1 (proleptic Gregorian), which is
a Monday; this matches Go's `time` package absolute calendar. -/

/-- Seconds in a day. -/
def secPerDay : Int := 86400

/-- Calendar-day index of a timestamp; embeds both SQL `DATE(ts)` and Go's
`Format("2006-01-02")` label (the ISO date string is injective in this
index). `Int` division is Euclidean, i.e. floor for a positive divisor. -/
def dateOf (t : Int) : Int := t / 86400

/-- Go `time.Weekday` of a timestamp: Sunday = 0 ... Saturday = 6.
Day 0 (Jan 1, year 1) is a Monday, hence the `+ 1`. -/
def weekdayOf (t : Int) : Int := (dateOf t + 1) % 7

/-- One leap day for a Gregorian leap year, as in Go `time.isLeap`. -/
def leapDays (y : Nat) : Nat :=
  if y % 4 = 0 ∧ (y % 100 ≠ 0 ∨ y % 400 = 0) then 1 else 0

/-- Length of month `m` of year `y` in the Gregorian calendar (reference
definition; the report computes it through date arithmetic and is proved to
agree). -/
def daysInMonthCal (y m : Nat) : Nat :=
  if m = 2 then 28 + leapDays y
  else if m = 4 ∨ m = 6 ∨ m = 9 ∨ m = 11 then 30
  else 31

/-- Days from Jan 1 of year `y` to the first of month `m` (same year). -/
def daysBeforeMonth (y : Nat) : Nat → Nat
  | 1 => 0
  | 2 => 31
  | 3 => 59 + leapDays y
  | 4 => 90 + leapDays y
  | 5 => 120 + leapDays y
  | 6 => 151 + leapDays y
  | 7 => 181 + leapDays y
  | 8 => 212 + leapDays y
  | 9 => 243 + leapDays y
  | 10 => 273 + leapDays y
  | 11 => 304 + leapDays y
  | 12 => 334 + leapDays y
  | _ => 0

/-- Days from Jan 1 of year 1 to Jan 1 of year `y` (for `y ≥ 1`). -/
def daysBeforeYear (y : Nat) : Nat :=
  365 * (y - 1) + (y - 1) / 4 + (y - 1) / 400 - (y - 1) / 100

/-- Timestamp of the first instant of month `m` of year `y`; embeds Go
`time.Date(y, m, 1, 0, 0, 0, 0, loc)` in UTC. -/
def monthStartSec (y m : Nat) : Int :=
  86400 * ((daysBeforeYear y + daysBeforeMonth y m : Nat) : Int)

/-- The (year, month) following (y, m); embeds the normalization performed
by Go `AddDate(0, 1, 0)` on the first of a month. -/
def nextMonth (y m : Nat) : Nat × Nat :=
  if m = 12 then (y + 1, 1) else (y, m + 1)

/-- Timestamp of the first instant of the month after (y, m). -/
def nextMonthStartSec (y m : Nat) : Int :=
  monthStartSec (nextMonth y m).1 (nextMonth y m).2

/-- Membership of a timestamp in calendar month (y, m): at or after the
first instant of the month and before the first instant of the next. -/
def inMonth (y m : Nat) (t : Int) : Prop :=
  monthStartSec y m ≤ t ∧ t < nextMonthStartSec y m

instance (y m : Nat) (t : Int) : Decidable (inMonth y m t) :=
  inferInstanceAs (Decidable (_ ∧ _))

/-! ## Request-parameter parsing -/

/-- Numeric value of a decimal digit character. -/
def digitVal (c : Char) : Nat := c.toNat - 48

/-- Decimal value of a digit list, most significant first. -/
def digitsVal (l : List Char) : Nat := l.foldl (fun acc c => 10 * acc + digitVal c) 0

/-- Embeds Go `strconv.Atoi`: optional sign followed by at least one digit,
over the whole string; anything else is an error (`none`). (Range overflow
of 64-bit int is not modelled; the reports only compare the value against
small bounds.) -/
def atoiOpt (s : String) : Option Int :=
  match s.data with
  | [] => none
  | '+' :: rest =>
    if rest ≠ [] ∧ rest.all Char.isDigit then some ((digitsVal rest : Nat) : Int) else none
  | '-' :: rest =>
    if rest ≠ [] ∧ rest.all Char.isDigit then some (-((digitsVal rest : Nat) : Int)) else none
  | l => if l.all Char.isDigit then some ((digitsVal l : Nat) : Int) else none

/-- Embeds the shared `days`/`weeks` parameter handling of
`GetDailyStats`/`GetWeeklyStats` (stats_controller.go lines 48-54, 90-96):
start from the default; if the string is nonempty, parses as an int
(`SafeIntConvert`, where the empty string yields 0), and the parsed value
lies in `(0, limit]`, use it; otherwise keep the default. -/
def parseIntParam (limit deflt : Nat) (s : String) : Nat :=
  if s = "" then deflt
  else
    match atoiOpt s with
    | some v => if 0 < v ∧ v ≤ (limit : Int) then v.toNat else deflt
    | none => deflt

/-- Embeds Go `time.Parse("2006-01", s)` (stats_controller.go line 297):
exactly four digits, a dash, exactly two digits, and the month must be in
1..12; anything else is a parse error. -/
def parseMonth (s : String) : Option (Nat × Nat) :=
  match s.data with
  | [a, b, c, d, dash, e, f] =>
    if a.isDigit ∧ b.isDigit ∧ c.isDigit ∧ d.isDigit ∧ dash = '-' ∧ e.isDigit ∧ f.isDigit then
      let y := 1000 * digitVal a + 100 * digitVal b + 10 * digitVal c + digitVal d
      let m := 10 * digitVal e + digitVal f
      if 1 ≤ m ∧ m ≤ 12 then some (y, m) else none
    else none
  | _ => none

/-! ## The database session

Every query the stats controller issues is a `SELECT` (gorm `Count`, `Find`,
or a raw `SELECT AVG(...)`); the session is embedded as explicit state
passing so that read-only-ness and idempotence are stated, not assumed. -/

/-- A computation against the store: returns a value and the store state
after the computation. -/
def StoreM (α : Type) : Type := Store → α × Store

/-- Embedding of a computation that touches no data. -/
def pureS {α : Type} (a : α) : StoreM α := fun s => (a, s)

/-- Sequencing of two session steps. -/
def bindS {α β : Type} (m : StoreM α) (k : α → StoreM β) : StoreM β :=
  fun s => k (m s).1 (m s).2

/-- gorm `Model(&Task{}).Where(...).Count(...)`: a SELECT COUNT over tasks. -/
def countTasksM (p : Task → Bool) : StoreM Nat :=
  fun s => ((s.tasks.filter p).length, s)

/-- gorm `Model(&Project{}).Where(...).Count(...)`. -/
def countProjectsM (p : Project → Bool) : StoreM Nat :=
  fun s => ((s.projects.filter p).length, s)

/-- gorm `Model(&Category{}).Where(...).Count(...)`. -/
def countCategoriesM (p : Category → Bool) : StoreM Nat :=
  fun s => ((s.categories.filter p).length, s)

/-- gorm `Where("user_id = ?", uid).Find(&categories)`. -/
def findCategoriesM (uid : Nat) : StoreM (List Category) :=
  fun s => (s.categories.filter (fun c => c.userId == uid), s)

/-- gorm `Where("user_id = ?", uid).Find(&projects)`. -/
def findProjectsM (uid : Nat) : StoreM (List Project) :=
  fun s => (s.projects.filter (fun p => p.userId == uid), s)

/-- Truncating hour difference: embeds MySQL
`TIMESTAMPDIFF(HOUR, a, b)` = (b - a) whole hours, truncated toward zero. -/
def hoursTrunc (a b : Int) : Int := Int.tdiv (b - a) 3600

/-- The raw query of `GetProductivityStats` (stats_controller.go lines
182-188): `SELECT AVG(TIMESTAMPDIFF(HOUR, created_at, completed_at)) FROM
tasks WHERE user_id = ? AND status = 'completed' AND completed_at IS NOT
NULL`. SQL `AVG` of an empty set is NULL, which gorm scans into the zero
value `0.0`. -/
def avgCompletionM (uid : Nat) : StoreM ℚ :=
  fun s =>
    let xs := s.tasks.filter
      (fun t => t.userId == uid && t.status == "completed" && t.completedAt.isSome)
    let hs := xs.map (fun t => hoursTrunc t.createdAt (t.completedAt.getD 0))
    (if xs.length = 0 then 0 else ((hs.sum : Int) : ℚ) / (xs.length : ℚ), s)

/-- A query loop: one session step per list element, results in order
(embeds the Go `for ... append` loops). -/
def mapStoreM {α β : Type} (xs : List α) (f : α → StoreM β) : StoreM (List β) :=
  match xs with
  | [] => pureS []
  | x :: rest => bindS (f x) fun b => bindS (mapStoreM rest f) fun bs => pureS (b :: bs)

/-! ## Shared boolean predicates on optional columns (SQL NULL semantics) -/

/-- SQL `DATE(col) = d` on a nullable column: NULL never matches. -/
def optSameDate (o : Option Int) (d : Int) : Bool :=
  match o with
  | some t => dateOf t == d
  | none => false

/-- SQL `col >= lo AND col <= hi` on a nullable column: NULL never matches. -/
def optInRange (o : Option Int) (lo hi : Int) : Bool :=
  match o with
  | some t => decide (lo ≤ t) && decide (t ≤ hi)
  | none => false

/-- SQL `col < hi` on a nullable column: NULL never matches. -/
def optBefore (o : Option Int) (hi : Int) : Bool :=
  match o with
  | some t => decide (t < hi)
  | none => false

/-! ## Report shapes -/

/-- Response of `GetOverview` (`models.StatsOverview`). -/
structure StatsOverview where
  totalTasks : Nat
  pendingTasks : Nat
  inProgressTasks : Nat
  completedTasks : Nat
  totalProjects : Nat
  activeProjects : Nat
  totalCategories : Nat
deriving Repr, DecidableEq

/-- One entry of `GetDailyStats` (`models.DailyStats`); `date` carries the
day index formatted into the ISO label. -/
structure DailyStats where
  date : Int
  tasksCreated : Nat
  tasksCompleted : Nat
deriving Repr, DecidableEq

/-- One entry of `GetWeeklyStats`; the Go label string is
`weekStart.Format("2006-01-02") + " 至 " + weekEnd.Format(...)`, carried
here as the two boundary timestamps. -/
structure WeeklyStats where
  weekStart : Int
  weekEnd : Int
  tasksCreated : Nat
  tasksCompleted : Nat
deriving Repr, DecidableEq

/-- One element of the `recent_productivity` array. -/
structure TrendEntry where
  date : Int
  created : Nat
  completed : Nat
  efficiency : ℚ
deriving Repr, DecidableEq

/-- One element of the `category_efficiency` array. -/
structure CategoryEff where
  categoryName : String
  totalTasks : Nat
  completedTasks : Nat
  completionRate : ℚ
deriving Repr, DecidableEq

/-- One entry of the `priority_completion_rates` map, in the loop order
`low, medium, high, urgent`. -/
structure PriorityRate where
  priority : String
  rate : ℚ
deriving Repr, DecidableEq

/-- The `today` sub-object of the productivity report. -/
structure TodayStats where
  totalTasks : Nat
  completedTasks : Nat
  completionRate : ℚ
deriving Repr, DecidableEq

/-- Response of `GetProductivityStats`. -/
structure ProductivityStats where
  totalTasks : Nat
  completedTasks : Nat
  completionRate : ℚ
  lowPriority : Nat
  mediumPriority : Nat
  highPriority : Nat
  urgentPriority : Nat
  priorityCompletionRates : List PriorityRate
  avgCompletionTimeHours : ℚ
  recentProductivity : List TrendEntry
  categoryEfficiency : List CategoryEff
  overdueTasks : Nat
  today : TodayStats
deriving Repr, DecidableEq

/-- The `summary` sub-object of the monthly report. -/
structure MonthlySummary where
  tasksCreated : Nat
  tasksCompleted : Nat
  tasksInProgress : Nat
  completionRate : ℚ
deriving Repr, DecidableEq

/-- One element of the monthly `daily_trends` array. -/
structure DailyTrend where
  day : Nat
  created : Nat
  completed : Nat
deriving Repr, DecidableEq

/-- One element of the monthly `project_progress` array. -/
structure ProjectProgress where
  projectName : String
  totalTasks : Nat
  completed : Nat
  progress : ℚ
deriving Repr, DecidableEq

/-- Response of `GetMonthlyReport`. -/
structure MonthlyReport where
  month : String
  summary : MonthlySummary
  dailyTrends : List DailyTrend
  projectProgress : List ProjectProgress
deriving Repr, DecidableEq

/-- The only user-input error of the core: the 400 response for a malformed
`month` parameter. -/
inductive ApiError where
  | invalidInput
deriving Repr, DecidableEq

/-- The `rate = denominator > 0 ? numerator/denominator*100 : 0.0` pattern
the source repeats at stats_controller.go lines 147-150, 168-171, 229-232,
279-284, 358-361, 377-382. -/
def rateQ (num den : Nat) : ℚ :=
  if 0 < den then (num : ℚ) / (den : ℚ) * 100 else 0

/-- The daily efficiency rule of `GetProductivityStats` (lines 204-209):
completed/created·100 when something was created; the 100% override when
nothing was created but something completed; else 0. -/
def efficiencyQ (created completed : Nat) : ℚ :=
  if 0 < created then (completed : ℚ) / (created : ℚ) * 100
  else if 0 < completed then 100 else 0

/-! ## The five report computations (`stats_controller.go`) -/

/-- `GetOverview` (lines 22-41): seven independent counts. -/
def getOverviewM (uid : Nat) : StoreM StatsOverview :=
  bindS (countTasksM (fun t => t.userId == uid)) fun total =>
  bindS (countTasksM (fun t => t.userId == uid && t.status == "pending")) fun pending =>
  bindS (countTasksM (fun t => t.userId == uid && t.status == "in_progress")) fun inprog =>
  bindS (countTasksM (fun t => t.userId == uid && t.status == "completed")) fun comp =>
  bindS (countProjectsM (fun p => p.userId == uid)) fun totProj =>
  bindS (countProjectsM (fun p => p.userId == uid && p.status == "active")) fun actProj =>
  bindS (countCategoriesM (fun c => c.userId == uid)) fun totCat =>
  pureS ⟨total, pending, inprog, comp, totProj, actProj, totCat⟩

/-- Body of the `GetDailyStats` loop (lines 59-80) for loop counter `i`:
the window is the calendar day `now - i` days back; both counts compare
`DATE(column)` against that day's label. -/
def dailyBodyM (uid : Nat) (now : Int) (i : Nat) : StoreM DailyStats :=
  let d := dateOf (now - 86400 * (i : Int))
  bindS (countTasksM (fun t => t.userId == uid && dateOf t.createdAt == d)) fun created =>
  bindS (countTasksM (fun t => t.userId == uid && optSameDate t.completedAt d)) fun comp =>
  pureS ⟨d, created, comp⟩

/-- `GetDailyStats` (lines 44-83): `days` defaults to 7, an in-range parsed
value in [1, 30] replaces it; the loop runs `i = days-1` down to `0`,
appending, so the `j`-th entry has `i = days - 1 - j`. -/
def getDailyStatsM (uid : Nat) (daysStr : String) (now : Int) : StoreM (List DailyStats) :=
  let days := parseIntParam 30 7 daysStr
  mapStoreM (List.range days) (fun j => dailyBodyM uid now (days - 1 - j))

/-- Body of the `GetWeeklyStats` loop (lines 107-132) for loop counter `i`:
`weekStart = now.AddDate(0, 0, -int(now.Weekday()) + 1 - i*7)`,
`weekEnd = weekStart.AddDate(0, 0, 6)`, and both counts use the range
`[weekStart, weekEnd + 24h]` inclusive. -/
def weeklyBodyM (uid : Nat) (now : Int) (i : Nat) : StoreM WeeklyStats :=
  let weekStart := now + 86400 * (1 - weekdayOf now - 7 * (i : Int))
  let weekEnd := weekStart + 86400 * 6
  bindS (countTasksM (fun t => t.userId == uid &&
    decide (weekStart ≤ t.createdAt) && decide (t.createdAt ≤ weekEnd + 86400))) fun created =>
  bindS (countTasksM (fun t => t.userId == uid &&
    optInRange t.completedAt weekStart (weekEnd + 86400))) fun comp =>
  pureS ⟨weekStart, weekEnd, created, comp⟩

/-- `GetWeeklyStats` (lines 86-135): `weeks` defaults to 4, an in-range
parsed value in [1, 12] replaces it; the loop runs `i = weeks-1` down to
`0`, appending. -/
def getWeeklyStatsM (uid : Nat) (weeksStr : String) (now : Int) : StoreM (List WeeklyStats) :=
  let weeks := parseIntParam 12 4 weeksStr
  mapStoreM (List.range weeks) (fun j => weeklyBodyM uid now (weeks - 1 - j))

/-- The priority list iterated by `GetProductivityStats` (line 161). -/
def prioritiesList : List String := ["low", "medium", "high", "urgent"]

/-- Body of the per-priority completion-rate loop (lines 163-173). -/
def priorityBodyM (uid : Nat) (p : String) : StoreM PriorityRate :=
  bindS (countTasksM (fun t => t.userId == uid && t.priority == p)) fun total =>
  bindS (countTasksM (fun t => t.userId == uid && t.priority == p && t.status == "completed"))
    fun comp =>
  pureS ⟨p, rateQ comp total⟩

/-- Body of the 7-day efficiency-trend loop (lines 192-217) for counter `i`. -/
def trendBodyM (uid : Nat) (now : Int) (i : Nat) : StoreM TrendEntry :=
  let d := dateOf (now - 86400 * (i : Int))
  bindS (countTasksM (fun t => t.userId == uid && dateOf t.createdAt == d)) fun created =>
  bindS (countTasksM (fun t => t.userId == uid && optSameDate t.completedAt d)) fun comp =>
  pureS ⟨d, created, comp, efficiencyQ created comp⟩

/-- Body of the per-category efficiency loop (lines 224-240). -/
def categoryBodyM (uid : Nat) (cat : Category) : StoreM CategoryEff :=
  bindS (countTasksM (fun t => t.userId == uid && t.categoryId == some cat.id)) fun total =>
  bindS (countTasksM (fun t => t.userId == uid && t.categoryId == some cat.id &&
    t.status == "completed")) fun comp =>
  pureS ⟨cat.name, total, comp, rateQ comp total⟩

/-- `GetProductivityStats` (lines 138-289). -/
def getProductivityStatsM (uid : Nat) (now : Int) : StoreM ProductivityStats :=
  bindS (countTasksM (fun t => t.userId == uid)) fun totalTasks =>
  bindS (countTasksM (fun t => t.userId == uid && t.status == "completed")) fun completedTasks =>
  bindS (countTasksM (fun t => t.userId == uid && t.priority == "low")) fun lowP =>
  bindS (countTasksM (fun t => t.userId == uid && t.priority == "medium")) fun medP =>
  bindS (countTasksM (fun t => t.userId == uid && t.priority == "high")) fun highP =>
  bindS (countTasksM (fun t => t.userId == uid && t.priority == "urgent")) fun urgP =>
  bindS (mapStoreM prioritiesList (priorityBodyM uid)) fun prRates =>
  bindS (avgCompletionM uid) fun avgH =>
  bindS (mapStoreM (List.range 7) (fun j => trendBodyM uid now (6 - j))) fun trend =>
  bindS (findCategoriesM uid) fun cats =>
  bindS (mapStoreM cats (categoryBodyM uid)) fun catEff =>
  bindS (countTasksM (fun t => t.userId == uid && t.status != "completed" &&
    optBefore t.dueDate now)) fun overdue =>
  bindS (countTasksM (fun t => t.userId == uid && optSameDate t.dueDate (dateOf now)))
    fun todayT =>
  bindS (countTasksM (fun t => t.userId == uid && optSameDate t.dueDate (dateOf now) &&
    t.status == "completed")) fun todayC =>
  pureS ⟨totalTasks, completedTasks, rateQ completedTasks totalTasks,
    lowP, medP, highP, urgP, prRates, avgH, trend, catEff, overdue,
    ⟨todayT, todayC, rateQ todayC todayT⟩⟩

/-- Body of the monthly per-day trend loop (lines 329-346): day `day` runs
from `time.Date(y, m, day, 0, 0, 0, 0)` to `dayStart + 24h - 1s`. -/
def monthTrendBodyM (uid : Nat) (y m : Nat) (day : Nat) : StoreM DailyTrend :=
  let dayStart := monthStartSec y m + 86400 * ((day : Int) - 1)
  let dayEnd := dayStart + 86400 - 1
  bindS (countTasksM (fun t => t.userId == uid &&
    decide (dayStart ≤ t.createdAt) && decide (t.createdAt ≤ dayEnd))) fun created =>
  bindS (countTasksM (fun t => t.userId == uid &&
    optInRange t.completedAt dayStart dayEnd)) fun comp =>
  pureS ⟨day, created, comp⟩

/-- Body of the per-project progress loop (lines 353-369). -/
def projectBodyM (uid : Nat) (p : Project) : StoreM ProjectProgress :=
  bindS (countTasksM (fun t => t.projectId == some p.id && t.userId == uid)) fun total =>
  bindS (countTasksM (fun t => t.projectId == some p.id && t.userId == uid &&
    t.status == "completed")) fun comp =>
  pureS ⟨p.name, total, comp, rateQ comp total⟩

/-- The `monthEnd` of `GetMonthlyReport` (line 305):
`monthStart.AddDate(0, 1, 0).Add(-time.Second)`, the last second of the
month. -/
def monthEndSec (y m : Nat) : Int := nextMonthStartSec y m - 1

/-- The `daysInMonth := monthEnd.Day()` computation (line 327): the
day-of-month of a timestamp `t` lying inside month (y, m) is
`(t - monthStart)/86400 + 1`, applied to the month-end timestamp. -/
def monthDayCount (y m : Nat) : Nat :=
  ((monthEndSec y m - monthStartSec y m) / 86400 + 1).toNat

/-- `GetMonthlyReport` (lines 292-389). A malformed `month` parameter stops
the request with the 400 `InvalidInput` response before any query is
issued. -/
def getMonthlyReportM (uid : Nat) (monthStr : String) :
    StoreM (Except ApiError MonthlyReport) :=
  match parseMonth monthStr with
  | none => pureS (Except.error ApiError.invalidInput)
  | some (y, m) =>
    let monthStart := monthStartSec y m
    let monthEnd := monthEndSec y m
    bindS (countTasksM (fun t => t.userId == uid &&
      decide (monthStart ≤ t.createdAt) && decide (t.createdAt ≤ monthEnd))) fun created =>
    bindS (countTasksM (fun t => t.userId == uid &&
      optInRange t.completedAt monthStart monthEnd)) fun comp =>
    bindS (countTasksM (fun t => t.userId == uid && t.status == "in_progress" &&
      decide (monthStart ≤ t.createdAt) && decide (t.createdAt ≤ monthEnd))) fun inprog =>
    bindS (mapStoreM (List.range (monthDayCount y m)) (fun j => monthTrendBodyM uid y m (j + 1)))
      fun trends =>
    bindS (findProjectsM uid) fun projs =>
    bindS (mapStoreM projs (projectBodyM uid)) fun progress =>
    pureS (Except.ok ⟨monthStr, ⟨created, comp, inprog, rateQ comp created⟩, trends, progress⟩)

/-! ## Pure views of the reports -/

/-- Result of running a session computation. -/
def runS {α : Type} (m : StoreM α) (s : Store) : α := (m s).1

/-- A session computation that leaves the store exactly as it found it. -/
def ReadOnly {α : Type} (m : StoreM α) : Prop := ∀ s, (m s).2 = s

/-- `GetOverview` as a function of the store. -/
def getOverview (s : Store) (uid : Nat) : StatsOverview := runS (getOverviewM uid) s

/-- `GetDailyStats` as a function of the store. -/
def getDailyStats (s : Store) (uid : Nat) (daysStr : String) (now : Int) : List DailyStats :=
  runS (getDailyStatsM uid daysStr now) s

/-- `GetWeeklyStats` as a function of the store. -/
def getWeeklyStats (s : Store) (uid : Nat) (weeksStr : String) (now : Int) : List WeeklyStats :=
  runS (getWeeklyStatsM uid weeksStr now) s

/-- `GetProductivityStats` as a function of the store. -/
def getProductivityStats (s : Store) (uid : Nat) (now : Int) : ProductivityStats :=
  runS (getProductivityStatsM uid now) s

/-- `GetMonthlyReport` as a function of the store. -/
def getMonthlyReport (s : Store) (uid : Nat) (monthStr : String) :
    Except ApiError MonthlyReport :=
  runS (getMonthlyReportM uid monthStr) s

/-! ## Read-only facts and closed forms of the reports -/

@[simp] theorem ro_pureS {α : Type} (a : α) : ReadOnly (pureS a) := fun _ => rfl

@[simp] theorem ro_countTasksM (p : Task → Bool) : ReadOnly (countTasksM p) := fun _ => rfl

@[simp] theorem ro_countProjectsM (p : Project → Bool) : ReadOnly (countProjectsM p) :=
  fun _ => rfl

@[simp] theorem ro_countCategoriesM (p : Category → Bool) : ReadOnly (countCategoriesM p) :=
  fun _ => rfl

@[simp] theorem ro_findCategoriesM (uid : Nat) : ReadOnly (findCategoriesM uid) := fun _ => rfl

@[simp] theorem ro_findProjectsM (uid : Nat) : ReadOnly (findProjectsM uid) := fun _ => rfl

@[simp] theorem ro_avgCompletionM (uid : Nat) : ReadOnly (avgCompletionM uid) := fun _ => rfl

theorem ro_bindS {α β : Type} {m : StoreM α} {k : α → StoreM β}
    (hm : ReadOnly m) (hk : ∀ a, ReadOnly (k a)) : ReadOnly (bindS m k) := by
  intro s
  show (k (m s).1 (m s).2).2 = s
  rw [hm s]
  exact hk _ s

theorem ro_mapStoreM {α β : Type} {xs : List α} {f : α → StoreM β}
    (h : ∀ a, ReadOnly (f a)) : ReadOnly (mapStoreM xs f) := by
  induction xs with
  | nil => exact fun _ => rfl
  | cons x rest ih => exact ro_bindS (h x) (fun _ => ro_bindS ih (fun _ => ro_pureS _))

@[simp] theorem run_pureS {α : Type} (a : α) (s : Store) : runS (pureS a) s = a := rfl

@[simp] theorem run_countTasksM (p : Task → Bool) (s : Store) :
    runS (countTasksM p) s = (s.tasks.filter p).length := rfl

@[simp] theorem run_countProjectsM (p : Project → Bool) (s : Store) :
    runS (countProjectsM p) s = (s.projects.filter p).length := rfl

@[simp] theorem run_countCategoriesM (p : Category → Bool) (s : Store) :
    runS (countCategoriesM p) s = (s.categories.filter p).length := rfl

@[simp] theorem run_findCategoriesM (uid : Nat) (s : Store) :
    runS (findCategoriesM uid) s = s.categories.filter (fun c => c.userId == uid) := rfl

@[simp] theorem run_findProjectsM (uid : Nat) (s : Store) :
    runS (findProjectsM uid) s = s.projects.filter (fun p => p.userId == uid) := rfl

theorem run_bindS {α β : Type} {m : StoreM α} (k : α → StoreM β) (s : Store)
    (hm : ReadOnly m) : runS (bindS m k) s = runS (k (runS m s)) s := by
  show (k (m s).1 (m s).2).1 = _
  rw [hm s]
  rfl

theorem run_mapStoreM {α β : Type} {xs : List α} {f : α → StoreM β} (s : Store)
    (h : ∀ a, ReadOnly (f a)) :
    runS (mapStoreM xs f) s = xs.map (fun a => runS (f a) s) := by
  induction xs with
  | nil => rfl
  | cons x rest ih =>
    rw [show mapStoreM (x :: rest) f
      = bindS (f x) (fun b => bindS (mapStoreM rest f) fun bs => pureS (b :: bs)) from rfl]
    rw [run_bindS _ _ (h x), run_bindS _ _ (ro_mapStoreM h), ih, run_pureS]
    rfl

@[simp] theorem ro_dailyBodyM (uid : Nat) (now : Int) (i : Nat) :
    ReadOnly (dailyBodyM uid now i) :=
  ro_bindS (ro_countTasksM _) (fun _ => ro_bindS (ro_countTasksM _) (fun _ => ro_pureS _))

@[simp] theorem ro_weeklyBodyM (uid : Nat) (now : Int) (i : Nat) :
    ReadOnly (weeklyBodyM uid now i) :=
  ro_bindS (ro_countTasksM _) (fun _ => ro_bindS (ro_countTasksM _) (fun _ => ro_pureS _))

@[simp] theorem ro_priorityBodyM (uid : Nat) (p : String) : ReadOnly (priorityBodyM uid p) :=
  ro_bindS (ro_countTasksM _) (fun _ => ro_bindS (ro_countTasksM _) (fun _ => ro_pureS _))

@[simp] theorem ro_trendBodyM (uid : Nat) (now : Int) (i : Nat) :
    ReadOnly (trendBodyM uid now i) :=
  ro_bindS (ro_countTasksM _) (fun _ => ro_bindS (ro_countTasksM _) (fun _ => ro_pureS _))

@[simp] theorem ro_categoryBodyM (uid : Nat) (c : Category) : ReadOnly (categoryBodyM uid c) :=
  ro_bindS (ro_countTasksM _) (fun _ => ro_bindS (ro_countTasksM _) (fun _ => ro_pureS _))

@[simp] theorem ro_monthTrendBodyM (uid : Nat) (y m day : Nat) :
    ReadOnly (monthTrendBodyM uid y m day) :=
  ro_bindS (ro_countTasksM _) (fun _ => ro_bindS (ro_countTasksM _) (fun _ => ro_pureS _))

@[simp] theorem ro_projectBodyM (uid : Nat) (p : Project) : ReadOnly (projectBodyM uid p) :=
  ro_bindS (ro_countTasksM _) (fun _ => ro_bindS (ro_countTasksM _) (fun _ => ro_pureS _))

@[simp] theorem run_mapStoreM_dailyBody (uid : Nat) (now : Int) (g : Nat → Nat)
    (xs : List Nat) (s : Store) :
    runS (mapStoreM xs (fun j => dailyBodyM uid now (g j))) s
      = xs.map (fun j => runS (dailyBodyM uid now (g j)) s) :=
  run_mapStoreM s (fun _ => ro_dailyBodyM _ _ _)

@[simp] theorem run_mapStoreM_weeklyBody (uid : Nat) (now : Int) (g : Nat → Nat)
    (xs : List Nat) (s : Store) :
    runS (mapStoreM xs (fun j => weeklyBodyM uid now (g j))) s
      = xs.map (fun j => runS (weeklyBodyM uid now (g j)) s) :=
  run_mapStoreM s (fun _ => ro_weeklyBodyM _ _ _)

@[simp] theorem ro_mapStoreM_priorityBody (uid : Nat) (xs : List String) :
    ReadOnly (mapStoreM xs (priorityBodyM uid)) :=
  ro_mapStoreM (fun _ => ro_priorityBodyM _ _)

@[simp] theorem run_mapStoreM_priorityBody (uid : Nat) (xs : List String) (s : Store) :
    runS (mapStoreM xs (priorityBodyM uid)) s = xs.map (fun p => runS (priorityBodyM uid p) s) :=
  run_mapStoreM s (fun _ => ro_priorityBodyM _ _)

@[simp] theorem ro_mapStoreM_trendBody (uid : Nat) (now : Int) (g : Nat → Nat) (xs : List Nat) :
    ReadOnly (mapStoreM xs (fun j => trendBodyM uid now (g j))) :=
  ro_mapStoreM (fun _ => ro_trendBodyM _ _ _)

@[simp] theorem run_mapStoreM_trendBody (uid : Nat) (now : Int) (g : Nat → Nat)
    (xs : List Nat) (s : Store) :
    runS (mapStoreM xs (fun j => trendBodyM uid now (g j))) s
      = xs.map (fun j => runS (trendBodyM uid now (g j)) s) :=
  run_mapStoreM s (fun _ => ro_trendBodyM _ _ _)

@[simp] theorem ro_mapStoreM_categoryBody (uid : Nat) (xs : List Category) :
    ReadOnly (mapStoreM xs (categoryBodyM uid)) :=
  ro_mapStoreM (fun _ => ro_categoryBodyM _ _)

@[simp] theorem run_mapStoreM_categoryBody (uid : Nat) (xs : List Category) (s : Store) :
    runS (mapStoreM xs (categoryBodyM uid)) s = xs.map (fun c => runS (categoryBodyM uid c) s) :=
  run_mapStoreM s (fun _ => ro_categoryBodyM _ _)

@[simp] theorem ro_mapStoreM_monthTrendBody (uid : Nat) (y m : Nat) (g : Nat → Nat)
    (xs : List Nat) :
    ReadOnly (mapStoreM xs (fun j => monthTrendBodyM uid y m (g j))) :=
  ro_mapStoreM (fun _ => ro_monthTrendBodyM _ _ _ _)

@[simp] theorem run_mapStoreM_monthTrendBody (uid : Nat) (y m : Nat) (g : Nat → Nat)
    (xs : List Nat) (s : Store) :
    runS (mapStoreM xs (fun j => monthTrendBodyM uid y m (g j))) s
      = xs.map (fun j => runS (monthTrendBodyM uid y m (g j)) s) :=
  run_mapStoreM s (fun _ => ro_monthTrendBodyM _ _ _ _)

@[simp] theorem ro_mapStoreM_projectBody (uid : Nat) (xs : List Project) :
    ReadOnly (mapStoreM xs (projectBodyM uid)) :=
  ro_mapStoreM (fun _ => ro_projectBodyM _ _)

@[simp] theorem run_mapStoreM_projectBody (uid : Nat) (xs : List Project) (s : Store) :
    runS (mapStoreM xs (projectBodyM uid)) s = xs.map (fun p => runS (projectBodyM uid p) s) :=
  run_mapStoreM s (fun _ => ro_projectBodyM _ _)

/-- Closed form of the daily report: one entry per `j < days`, produced at
loop counter `i = days - 1 - j`. -/
theorem getDailyStats_eq (s : Store) (uid : Nat) (daysStr : String) (now : Int) :
    getDailyStats s uid daysStr now
      = (List.range (parseIntParam 30 7 daysStr)).map
          (fun j => runS (dailyBodyM uid now (parseIntParam 30 7 daysStr - 1 - j)) s) := by
  unfold getDailyStats getDailyStatsM
  exact run_mapStoreM s (fun _ => ro_dailyBodyM _ _ _)

/-- Closed form of the weekly report. -/
theorem getWeeklyStats_eq (s : Store) (uid : Nat) (weeksStr : String) (now : Int) :
    getWeeklyStats s uid weeksStr now
      = (List.range (parseIntParam 12 4 weeksStr)).map
          (fun j => runS (weeklyBodyM uid now (parseIntParam 12 4 weeksStr - 1 - j)) s) := by
  unfold getWeeklyStats getWeeklyStatsM
  exact run_mapStoreM s (fun _ => ro_weeklyBodyM _ _ _)

/-- Closed form of the overview report. -/
theorem getOverview_eq (s : Store) (uid : Nat) :
    getOverview s uid
      = ⟨(s.tasks.filter (fun t => t.userId == uid)).length,
         (s.tasks.filter (fun t => t.userId == uid && t.status == "pending")).length,
         (s.tasks.filter (fun t => t.userId == uid && t.status == "in_progress")).length,
         (s.tasks.filter (fun t => t.userId == uid && t.status == "completed")).length,
         (s.projects.filter (fun p => p.userId == uid)).length,
         (s.projects.filter (fun p => p.userId == uid && p.status == "active")).length,
         (s.categories.filter (fun c => c.userId == uid)).length⟩ := rfl

/-- Closed form of the productivity report. -/
theorem getProductivityStats_eq (s : Store) (uid : Nat) (now : Int) :
    getProductivityStats s uid now
      = ⟨(s.tasks.filter (fun t => t.userId == uid)).length,
         (s.tasks.filter (fun t => t.userId == uid && t.status == "completed")).length,
         rateQ (s.tasks.filter (fun t => t.userId == uid && t.status == "completed")).length
               (s.tasks.filter (fun t => t.userId == uid)).length,
         (s.tasks.filter (fun t => t.userId == uid && t.priority == "low")).length,
         (s.tasks.filter (fun t => t.userId == uid && t.priority == "medium")).length,
         (s.tasks.filter (fun t => t.userId == uid && t.priority == "high")).length,
         (s.tasks.filter (fun t => t.userId == uid && t.priority == "urgent")).length,
         prioritiesList.map (fun p => runS (priorityBodyM uid p) s),
         runS (avgCompletionM uid) s,
         (List.range 7).map (fun j => runS (trendBodyM uid now (6 - j)) s),
         (s.categories.filter (fun c => c.userId == uid)).map
           (fun c => runS (categoryBodyM uid c) s),
         (s.tasks.filter (fun t => t.userId == uid && t.status != "completed" &&
           optBefore t.dueDate now)).length,
         ⟨(s.tasks.filter (fun t => t.userId == uid &&
             optSameDate t.dueDate (dateOf now))).length,
          (s.tasks.filter (fun t => t.userId == uid &&
             optSameDate t.dueDate (dateOf now) && t.status == "completed")).length,
          rateQ (s.tasks.filter (fun t => t.userId == uid &&
                  optSameDate t.dueDate (dateOf now) && t.status == "completed")).length
                (s.tasks.filter (fun t => t.userId == uid &&
                  optSameDate t.dueDate (dateOf now))).length⟩⟩ := by
  simp only [getProductivityStats, getProductivityStatsM, run_bindS, run_pureS,
    run_countTasksM, run_findCategoriesM, run_mapStoreM_priorityBody,
    run_mapStoreM_trendBody, run_mapStoreM_categoryBody,
    ro_countTasksM, ro_avgCompletionM, ro_findCategoriesM,
    ro_mapStoreM_priorityBody, ro_mapStoreM_trendBody, ro_mapStoreM_categoryBody]

/-- Closed form of the monthly report when the month key parses. -/
theorem getMonthlyReport_eq (s : Store) (uid : Nat) (monthStr : String) (y m : Nat)
    (h : parseMonth monthStr = some (y, m)) :
    getMonthlyReport s uid monthStr
      = Except.ok
          ⟨monthStr,
           ⟨(s.tasks.filter (fun t => t.userId == uid &&
               decide (monthStartSec y m ≤ t.createdAt) &&
               decide (t.createdAt ≤ monthEndSec y m))).length,
            (s.tasks.filter (fun t => t.userId == uid &&
               optInRange t.completedAt (monthStartSec y m) (monthEndSec y m))).length,
            (s.tasks.filter (fun t => t.userId == uid && t.status == "in_progress" &&
               decide (monthStartSec y m ≤ t.createdAt) &&
               decide (t.createdAt ≤ monthEndSec y m))).length,
            rateQ
              (s.tasks.filter (fun t => t.userId == uid &&
                 optInRange t.completedAt (monthStartSec y m) (monthEndSec y m))).length
              (s.tasks.filter (fun t => t.userId == uid &&
                 decide (monthStartSec y m ≤ t.createdAt) &&
                 decide (t.createdAt ≤ monthEndSec y m))).length⟩,
           (List.range (monthDayCount y m)).map
             (fun j => runS (monthTrendBodyM uid y m (j + 1)) s),
           (s.projects.filter (fun p => p.userId == uid)).map
             (fun p => runS (projectBodyM uid p) s)⟩ := by
  unfold getMonthlyReport getMonthlyReportM
  rw [h]
  simp only [run_bindS, run_pureS, run_countTasksM, run_findProjectsM,
    run_mapStoreM_monthTrendBody, run_mapStoreM_projectBody,
    ro_countTasksM, ro_findProjectsM, ro_mapStoreM_monthTrendBody, ro_mapStoreM_projectBody]

/-- The monthly report on an unparseable month key: the 400 error, nothing
else. -/
theorem getMonthlyReport_err (s : Store) (uid : Nat) (monthStr : String)
    (h : parseMonth monthStr = none) :
    getMonthlyReport s uid monthStr = Except.error ApiError.invalidInput := by
  unfold getMonthlyReport getMonthlyReportM
  rw [h]
  rfl

/-! ## The whole reports are read-only sessions -/

theorem ro_getOverviewM (uid : Nat) : ReadOnly (getOverviewM uid) :=
  ro_bindS (ro_countTasksM _) fun _ =>
  ro_bindS (ro_countTasksM _) fun _ =>
  ro_bindS (ro_countTasksM _) fun _ =>
  ro_bindS (ro_countTasksM _) fun _ =>
  ro_bindS (ro_countProjectsM _) fun _ =>
  ro_bindS (ro_countProjectsM _) fun _ =>
  ro_bindS (ro_countCategoriesM _) fun _ => ro_pureS _

theorem ro_getDailyStatsM (uid : Nat) (daysStr : String) (now : Int) :
    ReadOnly (getDailyStatsM uid daysStr now) :=
  ro_mapStoreM (fun _ => ro_dailyBodyM _ _ _)

theorem ro_getWeeklyStatsM (uid : Nat) (weeksStr : String) (now : Int) :
    ReadOnly (getWeeklyStatsM uid weeksStr now) :=
  ro_mapStoreM (fun _ => ro_weeklyBodyM _ _ _)

theorem ro_getProductivityStatsM (uid : Nat) (now : Int) :
    ReadOnly (getProductivityStatsM uid now) :=
  ro_bindS (ro_countTasksM _) fun _ =>
  ro_bindS (ro_countTasksM _) fun _ =>
  ro_bindS (ro_countTasksM _) fun _ =>
  ro_bindS (ro_countTasksM _) fun _ =>
  ro_bindS (ro_countTasksM _) fun _ =>
  ro_bindS (ro_countTasksM _) fun _ =>
  ro_bindS (ro_mapStoreM_priorityBody _ _) fun _ =>
  ro_bindS (ro_avgCompletionM _) fun _ =>
  ro_bindS (ro_mapStoreM_trendBody _ _ _ _) fun _ =>
  ro_bindS (ro_findCategoriesM _) fun _ =>
  ro_bindS (ro_mapStoreM_categoryBody _ _) fun _ =>
  ro_bindS (ro_countTasksM _) fun _ =>
  ro_bindS (ro_countTasksM _) fun _ =>
  ro_bindS (ro_countTasksM _) fun _ => ro_pureS _

theorem ro_getMonthlyReportM (uid : Nat) (monthStr : String) :
    ReadOnly (getMonthlyReportM uid monthStr) := by
  unfold getMonthlyReportM
  cases h : parseMonth monthStr with
  | none => exact ro_pureS _
  | some ym =>
    exact
      ro_bindS (ro_countTasksM _) fun _ =>
      ro_bindS (ro_countTasksM _) fun _ =>
      ro_bindS (ro_countTasksM _) fun _ =>
      ro_bindS (ro_mapStoreM_monthTrendBody _ _ _ _ _) fun _ =>
      ro_bindS (ro_findProjectsM _) fun _ =>
      ro_bindS (ro_mapStoreM_projectBody _ _) fun _ => ro_pureS _

/-! ## Calendar arithmetic -/

/-- Day count from Jan 1 of year `y` to Jan 1 of year `y + 1`: 365, plus the
leap day of year `y`. -/
theorem daysBeforeYear_succ (y : Nat) (hy : 1 ≤ y) :
    daysBeforeYear (y + 1) = daysBeforeYear y + 365 + leapDays y := by
  obtain ⟨n, rfl⟩ : ∃ n, y = n + 1 := ⟨y - 1, by omega⟩
  unfold daysBeforeYear leapDays
  simp only [Nat.add_sub_cancel]
  have h4 := Nat.succ_div n 4
  have h100 := Nat.succ_div n 100
  have h400 := Nat.succ_div n 400
  by_cases c4 : 4 ∣ (n + 1) <;> by_cases c100 : 100 ∣ (n + 1) <;> by_cases c400 : 400 ∣ (n + 1) <;>
    simp only [c4, c100, c400, if_true, if_false] at h4 h100 h400 <;>
    split_ifs <;> omega

set_option linter.unusedTactic false in
/-- The first instant of the next month is the first instant of this month
plus the calendar length of this month. -/
theorem nextMonthStartSec_eq (y m : Nat) (hy : 1 ≤ y) (hm1 : 1 ≤ m) (hm2 : m ≤ 12) :
    nextMonthStartSec y m = monthStartSec y m + 86400 * ((daysInMonthCal y m : Nat) : Int) := by
  have hy1 := daysBeforeYear_succ y hy
  unfold nextMonthStartSec nextMonth monthStartSec
  interval_cases m <;>
    norm_num [daysBeforeMonth, daysInMonthCal] <;> push_cast <;> omega

/-- Every Gregorian month has between 28 and 31 days. -/
theorem daysInMonthCal_bounds (y m : Nat) :
    28 ≤ daysInMonthCal y m ∧ daysInMonthCal y m ≤ 31 := by
  unfold daysInMonthCal leapDays
  split_ifs <;> omega

/-- The day-of-month the report computes for the month-end timestamp is the
calendar length of the month. -/
theorem monthDayCount_eq (y m : Nat) (hy : 1 ≤ y) (hm1 : 1 ≤ m) (hm2 : m ≤ 12) :
    monthDayCount y m = daysInMonthCal y m := by
  have h := nextMonthStartSec_eq y m hy hm1 hm2
  have hb := daysInMonthCal_bounds y m
  unfold monthDayCount monthEndSec
  rw [h]
  omega

/-- A successfully parsed month key has a month in 1..12 (the final range
check of Go's `Parse`). -/
theorem parseMonth_bounds (s : String) (y m : Nat) (h : parseMonth s = some (y, m)) :
    1 ≤ m ∧ m ≤ 12 := by
  unfold parseMonth at h
  split at h
  · split_ifs at h with h1
    simp only at h
    split_ifs at h with h2
    rw [Option.some_inj] at h
    have hm : 10 * digitVal _ + digitVal _ = m := congrArg Prod.snd h
    omega
  · exact absurd h (by simp)

/-! ## Rate arithmetic -/

/-- A rate with zero denominator is 0, whatever the numerator. -/
theorem rateQ_zero_den (n : Nat) : rateQ n 0 = 0 := by
  unfold rateQ
  simp

/-- Rates are never negative. -/
theorem rateQ_nonneg (n d : Nat) : 0 ≤ rateQ n d := by
  unfold rateQ
  split_ifs
  · positivity
  · exact le_refl 0

/-- A rate whose numerator is at most its denominator is at most 100. -/
theorem rateQ_le_100 (n d : Nat) (h : n ≤ d) : rateQ n d ≤ 100 := by
  unfold rateQ
  split_ifs with hd
  · have h1 : (n : ℚ) / (d : ℚ) ≤ 1 := by
      rw [div_le_one (by exact_mod_cast hd)]
      exact_mod_cast h
    nlinarith
  · norm_num

/-- Counting with an extra conjunct never counts more rows. -/
theorem length_filter_and_le {α : Type} (l : List α) (p q : α → Bool) :
    (l.filter (fun a => p a && q a)).length ≤ (l.filter p).length := by
  induction l with
  | nil => simp
  | cons x xs ih =>
    by_cases hp : p x <;> by_cases hq : q x <;>
      simp [List.filter_cons, hp, hq] <;> omega

/-! ## Parameter clamping -/

/-- Whatever string the caller supplies, the effective `days`/`weeks` value
lies between 1 and the limit, provided the default does. -/
theorem parseIntParam_bounds (limit deflt : Nat) (s : String)
    (h1 : 1 ≤ deflt) (h2 : deflt ≤ limit) :
    1 ≤ parseIntParam limit deflt s ∧ parseIntParam limit deflt s ≤ limit := by
  unfold parseIntParam
  split_ifs with he
  · exact ⟨h1, h2⟩
  · cases hv : atoiOpt s with
    | none => exact ⟨h1, h2⟩
    | some v =>
      simp only
      split_ifs with hr
      · omega
      · exact ⟨h1, h2⟩

/-- The canonical decimal strings "1" .. "30" round-trip through the `days`
parameter handling. -/
theorem parseIntParam_repr_days :
    ∀ d : Nat, d < 31 → 1 ≤ d → parseIntParam 30 7 (Nat.repr d) = d := by decide

/-! ## Projections and helper predicates for the claim statements -/

/-- Whether the monthly endpoint answered with a report (no error). -/
def monthlyOk : Except ApiError MonthlyReport → Bool
  | Except.ok _ => true
  | Except.error _ => false

/-- Number of per-day trend entries of a monthly response (0 on error). -/
def monthlyTrendLength : Except ApiError MonthlyReport → Nat
  | Except.ok r => r.dailyTrends.length
  | Except.error _ => 0

/-- The whole-month created count of a monthly response (0 on error). -/
def monthlyCreated : Except ApiError MonthlyReport → Nat
  | Except.ok r => r.summary.tasksCreated
  | Except.error _ => 0

/-- The whole-month completion rate of a monthly response (0 on error). -/
def monthlyRate : Except ApiError MonthlyReport → ℚ
  | Except.ok r => r.summary.completionRate
  | Except.error _ => 0

/-- The project-progress array of a monthly response (empty on error). -/
def monthlyProgress : Except ApiError MonthlyReport → List ProjectProgress
  | Except.ok r => r.projectProgress
  | Except.error _ => []

/-- The spec's overdue predicate: owned, not completed, has a due date, and
the due date is strictly in the past. -/
def isOverdue (now : Int) (uid : Nat) (t : Task) : Prop :=
  t.userId = uid ∧ t.status ≠ "completed" ∧ ∃ d, t.dueDate = some d ∧ d < now

/-- The NULL-aware boolean `due_date < now` matches exactly the present due
dates in the past. -/
theorem optBefore_iff (o : Option Int) (hi : Int) :
    optBefore o hi = true ↔ ∃ d, o = some d ∧ d < hi := by
  cases o <;> simp [optBefore]

instance (now : Int) (uid : Nat) (t : Task) : Decidable (isOverdue now uid t) :=
  decidable_of_iff
    (t.userId = uid ∧ t.status ≠ "completed" ∧ optBefore t.dueDate now = true)
    (by rw [optBefore_iff]; exact Iff.rfl)

/-- A store with no rows at all. -/
def emptyStore : Store := ⟨[], [], []⟩

/-! ## Claim C10: the overview status counts partition the total -/

/-- Per-status counts over one list of tasks add up to the owner's total
when every owned task carries one of the three statuses. -/
theorem count_status_partition (l : List Task) (uid : Nat)
    (h : ∀ t ∈ l, t.userId = uid →
      t.status = "pending" ∨ t.status = "in_progress" ∨ t.status = "completed") :
    (l.filter (fun t => t.userId == uid && t.status == "pending")).length
      + (l.filter (fun t => t.userId == uid && t.status == "in_progress")).length
      + (l.filter (fun t => t.userId == uid && t.status == "completed")).length
      = (l.filter (fun t => t.userId == uid)).length := by
  induction l with
  | nil => simp
  | cons t ts ih =>
    have hrest := ih (fun x hx => h x (List.mem_cons_of_mem t hx))
    have ht := h t (List.mem_cons_self t ts)
    by_cases hu : t.userId = uid
    · rcases ht hu with h1 | h1 | h1 <;>
        simp [List.filter_cons, hu, h1] <;> omega
    · simp [List.filter_cons, hu]
      omega

/-- C10: for every store in which each of the owner's tasks has status
`pending`, `in_progress` or `completed`, the overview satisfies
`pending_tasks + in_progress_tasks + completed_tasks = total_tasks`. -/
theorem c10_overview_partition (s : Store) (uid : Nat)
    (h : ∀ t ∈ s.tasks, t.userId = uid →
      t.status = "pending" ∨ t.status = "in_progress" ∨ t.status = "completed") :
    (getOverview s uid).pendingTasks + (getOverview s uid).inProgressTasks
      + (getOverview s uid).completedTasks = (getOverview s uid).totalTasks := by
  rw [getOverview_eq]
  exact count_status_partition s.tasks uid h

/-- A store exercising all three statuses for the C10 witness. -/
def storeC10 : Store :=
  ⟨[⟨1, "t1", "pending", "low", none, none, 1, none, none, 0⟩,
    ⟨2, "t2", "in_progress", "low", none, none, 1, none, none, 0⟩,
    ⟨3, "t3", "completed", "low", none, some 10, 1, none, none, 0⟩,
    ⟨4, "t4", "completed", "low", none, some 10, 2, none, none, 0⟩], [], []⟩

/-- Witness for C10 at a concrete store: 1 + 1 + 1 = 3 owned tasks. -/
theorem c10_overview_partition_witness :
    (getOverview storeC10 1).pendingTasks + (getOverview storeC10 1).inProgressTasks
      + (getOverview storeC10 1).completedTasks = (getOverview storeC10 1).totalTasks :=
  c10_overview_partition storeC10 1 (by decide)

/-! ## Claim C8: the overdue count -/

/-- C8: the overdue count is exactly the number of the owner's tasks that
are not completed, have a due date, and whose due date is strictly before
`now`; in particular a completed task is never counted, nor is a task
without a due date. -/
theorem c8_overdue_count (s : Store) (uid : Nat) (now : Int) :
    (getProductivityStats s uid now).overdueTasks
      = (s.tasks.filter (fun t => decide (isOverdue now uid t))).length
    ∧ (∀ t : Task, t.status = "completed" → ¬ isOverdue now uid t)
    ∧ (∀ t : Task, t.dueDate = none → ¬ isOverdue now uid t) := by
  refine ⟨?_, ?_, ?_⟩
  · rw [getProductivityStats_eq]
    refine congrArg List.length (List.filter_congr ?_)
    intro t _
    rw [Bool.eq_iff_iff]
    simp only [Bool.and_eq_true, beq_iff_eq, bne_iff_ne, decide_eq_true_eq,
      optBefore_iff, isOverdue]
    tauto
  · intro t hc hov
    exact hov.2.1 hc
  · intro t hn hov
    obtain ⟨d, hd, _⟩ := hov.2.2
    rw [hn] at hd
    exact Option.noConfusion hd

/-- A store for the C8 witness: an overdue pending task, a past-due but
completed task (not counted), and a task with no due date (not counted). -/
def storeC8 : Store :=
  ⟨[⟨1, "t1", "pending", "low", some 50, none, 1, none, none, 0⟩,
    ⟨2, "t2", "completed", "low", some 50, some 60, 1, none, none, 0⟩,
    ⟨3, "t3", "pending", "low", none, none, 1, none, none, 0⟩], [], []⟩

/-- Witness for C8 at a concrete store and time: exactly one overdue task. -/
theorem c8_overdue_count_witness :
    (getProductivityStats storeC8 1 100).overdueTasks
      = (storeC8.tasks.filter (fun t => decide (isOverdue 100 1 t))).length
    ∧ ¬ isOverdue 100 1 ⟨2, "t2", "completed", "low", some 50, some 60, 1, none, none, 0⟩
    ∧ ¬ isOverdue 100 1 ⟨3, "t3", "pending", "low", none, none, 1, none, none, 0⟩ :=
  ⟨(c8_overdue_count storeC8 1 100).1,
   (c8_overdue_count storeC8 1 100).2.1 _ rfl,
   (c8_overdue_count storeC8 1 100).2.2 _ rfl⟩

/-! ## Claim C2: the daily efficiency rule on the 7-day trend -/

/-- C2: every entry of the 7-day productivity trend carries
`efficiency = completed/created · 100` when `created > 0`, `100` when
`created = 0 < completed`, and `0` when both are zero. -/
theorem c2_trend_efficiency (s : Store) (uid : Nat) (now : Int) :
    ∀ e ∈ (getProductivityStats s uid now).recentProductivity,
      e.efficiency =
        if 0 < e.created then (e.completed : ℚ) / (e.created : ℚ) * 100
        else if 0 < e.completed then 100 else 0 := by
  rw [getProductivityStats_eq]
  intro e he
  simp only [List.mem_map, List.mem_range] at he
  obtain ⟨j, hj, rfl⟩ := he
  rfl

/-- A store for the C2 witness: on the trend day `now`, two tasks created
and one completed, so the entry reads efficiency 50. -/
def storeC2 : Store :=
  ⟨[⟨1, "t1", "pending", "low", none, none, 1, none, none, 0⟩,
    ⟨2, "t2", "completed", "low", none, some 5, 1, none, none, 1⟩], [], []⟩

/-- Witness for C2: the last trend entry (day of `now = 0`) of a concrete
store satisfies the efficiency rule. -/
theorem c2_trend_efficiency_witness :
    ((getProductivityStats storeC2 1 0).recentProductivity.getD 6 ⟨0, 0, 0, 0⟩).efficiency =
      if 0 < ((getProductivityStats storeC2 1 0).recentProductivity.getD 6 ⟨0, 0, 0, 0⟩).created
      then (((getProductivityStats storeC2 1 0).recentProductivity.getD 6 ⟨0, 0, 0, 0⟩).completed : ℚ)
            / (((getProductivityStats storeC2 1 0).recentProductivity.getD 6 ⟨0, 0, 0, 0⟩).created : ℚ) * 100
      else if 0 < ((getProductivityStats storeC2 1 0).recentProductivity.getD 6 ⟨0, 0, 0, 0⟩).completed
      then 100 else 0 := by
  have hlen : (getProductivityStats storeC2 1 0).recentProductivity.length = 7 := by
    rw [getProductivityStats_eq]
    simp
  refine c2_trend_efficiency storeC2 1 0 _ ?_
  rw [List.getD_eq_getElem _ _ (by rw [hlen]; norm_num)]
  exact List.getElem_mem _

/-! ## Claim C6: malformed month keys fail with InvalidInput -/

/-- C6: a month parameter that does not parse as `YYYY-MM` makes the
monthly report fail with the `InvalidInput` client error and no report;
a parseable month never produces that error. -/
theorem c6_invalid_month (s : Store) (uid : Nat) (monthStr : String) :
    (parseMonth monthStr = none →
      getMonthlyReport s uid monthStr = Except.error ApiError.invalidInput)
    ∧ (∀ y m, parseMonth monthStr = some (y, m) →
        monthlyOk (getMonthlyReport s uid monthStr) = true) := by
  constructor
  · intro h
    exact getMonthlyReport_err s uid monthStr h
  · intro y m h
    rw [getMonthlyReport_eq s uid monthStr y m h]
    rfl

/-- Witness for C6: both "2024-13" (month out of range) and "bad" fail with
`InvalidInput`, while "2024-02" succeeds. -/
theorem c6_invalid_month_witness :
    getMonthlyReport emptyStore 1 ("2024-13") = Except.error ApiError.invalidInput
    ∧ getMonthlyReport emptyStore 1 ("bad") = Except.error ApiError.invalidInput
    ∧ monthlyOk (getMonthlyReport emptyStore 1 ("2024-02")) = true :=
  ⟨(c6_invalid_month emptyStore 1 ("2024-13")).1 (by decide),
   (c6_invalid_month emptyStore 1 ("bad")).1 (by decide),
   (c6_invalid_month emptyStore 1 ("2024-02")).2 2024 2 (by decide)⟩

/-! ## Claim C5: the daily report entries -/

/-- The label sequence of the daily report: consecutive ascending day
indices ending at the day of `now`. -/
theorem dailyDates_eq (s : Store) (uid : Nat) (daysStr : String) (now : Int) :
    (getDailyStats s uid daysStr now).map (fun e => e.date)
      = (List.range (parseIntParam 30 7 daysStr)).map
          (fun j : Nat => dateOf now - ((parseIntParam 30 7 daysStr : Int) - 1) + (j : Int)) := by
  rw [getDailyStats_eq, List.map_map]
  refine List.map_congr_left ?_
  intro j hj
  rw [List.mem_range] at hj
  show dateOf (now - 86400 * ((parseIntParam 30 7 daysStr - 1 - j : Nat) : Int)) = _
  unfold dateOf
  omega

/-- C5: for `days ∈ [1, 30]` the daily report has exactly `days` entries,
labeled oldest-first with consecutive dates, the last being the day of
`now`; out-of-range values such as 0 or 999 still succeed and fall back to
7 entries. -/
theorem c5_daily_entries (s : Store) (uid : Nat) (now : Int) :
    (∀ days : Nat, 1 ≤ days → days ≤ 30 →
      (getDailyStats s uid (Nat.repr days) now).length = days
      ∧ (getDailyStats s uid (Nat.repr days) now).map (fun e => e.date)
          = (List.range days).map (fun j : Nat => dateOf now - ((days : Int) - 1) + (j : Int))
      ∧ ((getDailyStats s uid (Nat.repr days) now).map (fun e => e.date)).getLast?
          = some (dateOf now))
    ∧ (getDailyStats s uid ("0") now).length = 7
    ∧ (getDailyStats s uid ("999") now).length = 7 := by
  have len : ∀ str, (getDailyStats s uid str now).length = parseIntParam 30 7 str := by
    intro str
    rw [getDailyStats_eq]
    simp
  refine ⟨?_, ?_, ?_⟩
  · intro days h1 h2
    have hr : parseIntParam 30 7 (Nat.repr days) = days :=
      parseIntParam_repr_days days (by omega) h1
    refine ⟨by rw [len, hr], by rw [dailyDates_eq, hr], ?_⟩
    rw [dailyDates_eq, hr, List.getLast?_eq_getElem? _]
    simp only [List.length_map, List.length_range]
    rw [List.getElem?_map]
    simp only [List.getElem?_range (show days - 1 < days by omega), Option.map_some']
    congr 1
    omega
  · rw [len]
    decide
  · rw [len]
    decide

/-- Witness for C5 at `days = 3`, `now` = second 86400 of day 1: entries
labeled day -1, day 0, day 1. -/
theorem c5_daily_entries_witness :
    (getDailyStats emptyStore 1 (Nat.repr 3) 86400).length = 3
    ∧ (getDailyStats emptyStore 1 (Nat.repr 3) 86400).map (fun e => e.date)
        = (List.range 3).map (fun j : Nat => dateOf 86400 - ((3 : Int) - 1) + (j : Int))
    ∧ ((getDailyStats emptyStore 1 (Nat.repr 3) 86400).map (fun e => e.date)).getLast?
        = some (dateOf 86400)
    ∧ (getDailyStats emptyStore 1 ("0") 86400).length = 7
    ∧ (getDailyStats emptyStore 1 ("999") 86400).length = 7 :=
  ⟨((c5_daily_entries emptyStore 1 86400).1 3 (by norm_num) (by norm_num)).1,
   ((c5_daily_entries emptyStore 1 86400).1 3 (by norm_num) (by norm_num)).2.1,
   ((c5_daily_entries emptyStore 1 86400).1 3 (by norm_num) (by norm_num)).2.2,
   (c5_daily_entries emptyStore 1 86400).2.1,
   (c5_daily_entries emptyStore 1 86400).2.2⟩

/-! ## Claim C4: the weekly windows -/

/-- C4: for every supplied `weeks` string (the effective count always lands
in [1, 12]) and every current time, each weekly window starts on a Monday
and ends on the Sunday six days later, windows are pairwise non-overlapping
and strictly increasing with the most recent last, and the `j`-th window
start is obtained by walking back `(weekday-1) + 7·(weeks-1-j)` days from
`now`. -/
theorem c4_weekly_windows (s : Store) (uid : Nat) (weeksStr : String) (now : Int) :
    (∀ w ∈ getWeeklyStats s uid weeksStr now,
      weekdayOf w.weekStart = 1
      ∧ dateOf w.weekEnd = dateOf w.weekStart + 6
      ∧ weekdayOf w.weekEnd = 0)
    ∧ List.Pairwise (fun a b => a.weekEnd < b.weekStart) (getWeeklyStats s uid weeksStr now)
    ∧ (getWeeklyStats s uid weeksStr now).map (fun w => w.weekStart)
        = (List.range (parseIntParam 12 4 weeksStr)).map
            (fun j => now + 86400 * (1 - weekdayOf now
                - 7 * ((parseIntParam 12 4 weeksStr - 1 - j : Nat) : Int)))
    ∧ 1 ≤ parseIntParam 12 4 weeksStr ∧ parseIntParam 12 4 weeksStr ≤ 12
    ∧ (getWeeklyStats s uid weeksStr now).length = parseIntParam 12 4 weeksStr := by
  obtain ⟨hb1, hb2⟩ := parseIntParam_bounds 12 4 weeksStr (by norm_num) (by norm_num)
  refine ⟨?_, ?_, ?_, hb1, hb2, ?_⟩
  · intro w hw
    rw [getWeeklyStats_eq] at hw
    simp only [List.mem_map, List.mem_range] at hw
    obtain ⟨j, hj, rfl⟩ := hw
    refine ⟨?_, ?_, ?_⟩
    · show weekdayOf (now + 86400 * (1 - weekdayOf now
        - 7 * ((parseIntParam 12 4 weeksStr - 1 - j : Nat) : Int))) = 1
      unfold weekdayOf dateOf
      omega
    · show dateOf (now + 86400 * (1 - weekdayOf now
          - 7 * ((parseIntParam 12 4 weeksStr - 1 - j : Nat) : Int)) + 86400 * 6)
        = dateOf (now + 86400 * (1 - weekdayOf now
          - 7 * ((parseIntParam 12 4 weeksStr - 1 - j : Nat) : Int))) + 6
      unfold dateOf weekdayOf
      omega
    · show weekdayOf (now + 86400 * (1 - weekdayOf now
        - 7 * ((parseIntParam 12 4 weeksStr - 1 - j : Nat) : Int)) + 86400 * 6) = 0
      unfold weekdayOf dateOf
      omega
  · rw [getWeeklyStats_eq, List.pairwise_iff_getElem]
    intro i j hi hj hij
    simp only [List.length_map, List.length_range] at hi hj
    simp only [List.getElem_map, List.getElem_range]
    show now + 86400 * (1 - weekdayOf now - 7 * ((parseIntParam 12 4 weeksStr - 1 - i : Nat) : Int))
          + 86400 * 6
        < now + 86400 * (1 - weekdayOf now - 7 * ((parseIntParam 12 4 weeksStr - 1 - j : Nat) : Int))
    omega
  · rw [getWeeklyStats_eq, List.map_map]
    refine List.map_congr_left ?_
    intro j hj
    rfl
  · rw [getWeeklyStats_eq]
    simp

/-- Witness for C4 at `now = 0` (a Monday) with the default four weeks:
window starts walk back 7 days at a time. -/
theorem c4_weekly_windows_witness :
    (∀ w ∈ getWeeklyStats emptyStore 1 ("") 0,
      weekdayOf w.weekStart = 1
      ∧ dateOf w.weekEnd = dateOf w.weekStart + 6
      ∧ weekdayOf w.weekEnd = 0)
    ∧ List.Pairwise (fun a b => a.weekEnd < b.weekStart) (getWeeklyStats emptyStore 1 ("") 0)
    ∧ (getWeeklyStats emptyStore 1 ("") 0).length = 4 :=
  ⟨(c4_weekly_windows emptyStore 1 ("") 0).1,
   (c4_weekly_windows emptyStore 1 ("") 0).2.1,
   (c4_weekly_windows emptyStore 1 ("") 0).2.2.2.2.2⟩

/-! ## Explicit values of the loop bodies -/

theorem run_priorityBodyM (uid : Nat) (p : String) (s : Store) :
    runS (priorityBodyM uid p) s
      = ⟨p, rateQ (s.tasks.filter (fun t => t.userId == uid && t.priority == p &&
              t.status == "completed")).length
            (s.tasks.filter (fun t => t.userId == uid && t.priority == p)).length⟩ := rfl

theorem run_trendBodyM (uid : Nat) (now : Int) (i : Nat) (s : Store) :
    runS (trendBodyM uid now i) s
      = ⟨dateOf (now - 86400 * (i : Int)),
         (s.tasks.filter (fun t => t.userId == uid &&
            dateOf t.createdAt == dateOf (now - 86400 * (i : Int)))).length,
         (s.tasks.filter (fun t => t.userId == uid &&
            optSameDate t.completedAt (dateOf (now - 86400 * (i : Int))))).length,
         efficiencyQ
           (s.tasks.filter (fun t => t.userId == uid &&
              dateOf t.createdAt == dateOf (now - 86400 * (i : Int)))).length
           (s.tasks.filter (fun t => t.userId == uid &&
              optSameDate t.completedAt (dateOf (now - 86400 * (i : Int))))).length⟩ := rfl

theorem run_categoryBodyM (uid : Nat) (c : Category) (s : Store) :
    runS (categoryBodyM uid c) s
      = ⟨c.name,
         (s.tasks.filter (fun t => t.userId == uid && t.categoryId == some c.id)).length,
         (s.tasks.filter (fun t => t.userId == uid && t.categoryId == some c.id &&
            t.status == "completed")).length,
         rateQ (s.tasks.filter (fun t => t.userId == uid && t.categoryId == some c.id &&
                 t.status == "completed")).length
               (s.tasks.filter (fun t => t.userId == uid && t.categoryId == some c.id)).length⟩ :=
  rfl

theorem run_projectBodyM (uid : Nat) (p : Project) (s : Store) :
    runS (projectBodyM uid p) s
      = ⟨p.name,
         (s.tasks.filter (fun t => t.projectId == some p.id && t.userId == uid)).length,
         (s.tasks.filter (fun t => t.projectId == some p.id && t.userId == uid &&
            t.status == "completed")).length,
         rateQ (s.tasks.filter (fun t => t.projectId == some p.id && t.userId == uid &&
                 t.status == "completed")).length
               (s.tasks.filter (fun t => t.projectId == some p.id && t.userId == uid)).length⟩ :=
  rfl

/-! ## Claim C3: the monthly window and per-day trend -/

/-- The day-of-month labels of the monthly trend (empty on error). -/
def monthlyDays : Except ApiError MonthlyReport → List Nat
  | Except.ok r => r.dailyTrends.map (fun e => e.day)
  | Except.error _ => []

/-- C3: for every validly parsed month key (years from 1 onward), the
monthly report succeeds, its whole-month window `[monthStart, monthEnd]`
contains a timestamp iff the timestamp lies in the calendar month, the
whole-month created count counts exactly the owner's tasks created in that
month, and the per-day trend has exactly one entry per calendar day of the
month (`daysInMonthCal`, which is 29 for 2024-02 and 28 for 2023-02). -/
theorem c3_month_window (s : Store) (uid : Nat) (monthStr : String) (y m : Nat)
    (h : parseMonth monthStr = some (y, m)) (hy : 1 ≤ y) :
    monthlyOk (getMonthlyReport s uid monthStr) = true
    ∧ monthlyTrendLength (getMonthlyReport s uid monthStr) = daysInMonthCal y m
    ∧ (∀ t : Int, (monthStartSec y m ≤ t ∧ t ≤ monthEndSec y m) ↔ inMonth y m t)
    ∧ monthlyDays (getMonthlyReport s uid monthStr)
        = (List.range (daysInMonthCal y m)).map (fun j => j + 1)
    ∧ monthlyCreated (getMonthlyReport s uid monthStr)
        = (s.tasks.filter (fun t => decide (t.userId = uid ∧ inMonth y m t.createdAt))).length := by
  obtain ⟨hm1, hm2⟩ := parseMonth_bounds monthStr y m h
  rw [getMonthlyReport_eq s uid monthStr y m h]
  refine ⟨rfl, ?_, ?_, ?_, ?_⟩
  · simp only [monthlyTrendLength, List.length_map, List.length_range]
    exact monthDayCount_eq y m hy hm1 hm2
  · intro t
    unfold inMonth monthEndSec
    omega
  · simp only [monthlyDays, List.map_map, monthDayCount_eq y m hy hm1 hm2]
    refine List.map_congr_left ?_
    intro j hj
    rfl
  · simp only [monthlyCreated]
    refine congrArg List.length (List.filter_congr ?_)
    intro t _
    rw [Bool.eq_iff_iff]
    simp only [Bool.and_eq_true, beq_iff_eq, decide_eq_true_eq, inMonth, monthEndSec]
    omega

/-- Witness for C3: February 2024 yields a successful report with 29 trend
entries and February 2023 yields 28 (leap-year dependent). -/
theorem c3_month_window_witness :
    monthlyTrendLength (getMonthlyReport emptyStore 1 ("2024-02")) = 29
    ∧ monthlyTrendLength (getMonthlyReport emptyStore 1 ("2023-02")) = 28
    ∧ monthlyOk (getMonthlyReport emptyStore 1 ("2024-02")) = true := by
  refine ⟨?_, ?_, (c3_month_window emptyStore 1 ("2024-02") 2024 2 (by decide) (by norm_num)).1⟩
  · rw [(c3_month_window emptyStore 1 ("2024-02") 2024 2 (by decide) (by norm_num)).2.1]
    decide
  · rw [(c3_month_window emptyStore 1 ("2023-02") 2023 2 (by decide) (by norm_num)).2.1]
    decide

/-! ## Claim C1: the range of the rate values -/

/-- Store for the C1 counterexample: on the day of `now = 0`, one task is
created and two are completed (one of them was created the previous day),
so the day's efficiency is `2/1·100 = 200`. -/
def storeC1 : Store :=
  ⟨[⟨1, "t1", "completed", "low", none, some 0, 1, none, none, 0⟩,
    ⟨2, "t2", "completed", "low", none, some 5, 1, none, none, -86400⟩], [], []⟩

/-- First instant of February 2024. -/
def febStart24 : Int := monthStartSec 2024 2

/-- Store for the monthly half of the C1 counterexample: in February 2024
one task is created while two tasks created in January are completed, so
the monthly completion rate is `2/1·100 = 200`. -/
def storeC1M : Store :=
  ⟨[⟨1, "t1", "pending", "low", none, none, 1, none, none, febStart24⟩,
    ⟨2, "t2", "completed", "low", none, some febStart24, 1, none, none, febStart24 - 86400⟩,
    ⟨3, "t3", "completed", "low", none, some (febStart24 + 5), 1, none, none,
      febStart24 - 90000⟩], [], []⟩

/-- C1 counterexample: rate values returned in reports (the last 7-day
trend efficiency, and the monthly completion rate) exceed 100, refuting
the claim that every returned rate lies in [0, 100]. -/
theorem c1_rates_counterexample :
    100 < ((getProductivityStats storeC1 1 0).recentProductivity.getD 6
      ⟨0, 0, 0, 0⟩).efficiency
    ∧ 100 < monthlyRate (getMonthlyReport storeC1M 1 ("2024-02")) := by
  constructor
  · have h1 : ((getProductivityStats storeC1 1 0).recentProductivity.getD 6
        ⟨0, 0, 0, 0⟩).efficiency = efficiencyQ 1 2 := by
      rw [getProductivityStats_eq]
      rfl
    rw [h1]
    norm_num [efficiencyQ]
  · have h2 : monthlyRate (getMonthlyReport storeC1M 1 ("2024-02")) = rateQ 2 1 := by
      rw [getMonthlyReport_eq storeC1M 1 ("2024-02") 2024 2 (by decide)]
      rfl
    rw [h2]
    norm_num [rateQ]

/-- Efficiency values are never negative. -/
theorem efficiencyQ_nonneg (created completed : Nat) : 0 ≤ efficiencyQ created completed := by
  unfold efficiencyQ
  split_ifs
  · positivity
  · norm_num
  · exact le_refl 0

/-- C1 (amended): every completion-type rate whose numerator counts a
subset of its denominator's task set — the overall completion rate, the
per-priority rates, the per-category rates, today's rate, and per-project
progress — lies in [0, 100], and any rate with denominator 0 is 0.0; the
daily efficiency and the monthly completion rate are nonnegative (with the
documented 100 override for efficiency on a zero denominator) but may
exceed 100 when a window completes more tasks than it creates. -/
theorem c1_rates_amended (s : Store) (uid : Nat) (now : Int) (monthStr : String) :
    (0 ≤ (getProductivityStats s uid now).completionRate
      ∧ (getProductivityStats s uid now).completionRate ≤ 100)
    ∧ (∀ pr ∈ (getProductivityStats s uid now).priorityCompletionRates,
        0 ≤ pr.rate ∧ pr.rate ≤ 100)
    ∧ (∀ ce ∈ (getProductivityStats s uid now).categoryEfficiency,
        0 ≤ ce.completionRate ∧ ce.completionRate ≤ 100)
    ∧ (0 ≤ (getProductivityStats s uid now).today.completionRate
      ∧ (getProductivityStats s uid now).today.completionRate ≤ 100)
    ∧ (∀ e ∈ (getProductivityStats s uid now).recentProductivity, 0 ≤ e.efficiency)
    ∧ 0 ≤ monthlyRate (getMonthlyReport s uid monthStr)
    ∧ (∀ pp ∈ monthlyProgress (getMonthlyReport s uid monthStr),
        0 ≤ pp.progress ∧ pp.progress ≤ 100)
    ∧ (∀ n : Nat, rateQ n 0 = 0) := by
  refine ⟨?_, ?_, ?_, ?_, ?_, ?_, ?_, fun n => rateQ_zero_den n⟩
  · rw [getProductivityStats_eq]
    exact ⟨rateQ_nonneg _ _, rateQ_le_100 _ _ (length_filter_and_le _ _ _)⟩
  · rw [getProductivityStats_eq]
    intro pr hpr
    simp only [List.mem_map] at hpr
    obtain ⟨p, hp, rfl⟩ := hpr
    rw [run_priorityBodyM]
    exact ⟨rateQ_nonneg _ _, rateQ_le_100 _ _ (length_filter_and_le _ _ _)⟩
  · rw [getProductivityStats_eq]
    intro ce hce
    simp only [List.mem_map] at hce
    obtain ⟨c, hc, rfl⟩ := hce
    rw [run_categoryBodyM]
    exact ⟨rateQ_nonneg _ _, rateQ_le_100 _ _ (length_filter_and_le _ _ _)⟩
  · rw [getProductivityStats_eq]
    exact ⟨rateQ_nonneg _ _, rateQ_le_100 _ _ (length_filter_and_le _ _ _)⟩
  · rw [getProductivityStats_eq]
    intro e he
    simp only [List.mem_map, List.mem_range] at he
    obtain ⟨j, hj, rfl⟩ := he
    rw [run_trendBodyM]
    exact efficiencyQ_nonneg _ _
  · cases h : parseMonth monthStr with
    | none =>
      rw [getMonthlyReport_err s uid monthStr h]
      exact le_refl 0
    | some ym =>
      rw [getMonthlyReport_eq s uid monthStr ym.1 ym.2 (by rw [h])]
      exact rateQ_nonneg _ _
  · cases h : parseMonth monthStr with
    | none =>
      rw [getMonthlyReport_err s uid monthStr h]
      intro pp hpp
      exact absurd hpp (by simp [monthlyProgress])
    | some ym =>
      rw [getMonthlyReport_eq s uid monthStr ym.1 ym.2 (by rw [h])]
      intro pp hpp
      simp only [monthlyProgress, List.mem_map] at hpp
      obtain ⟨p, hp, rfl⟩ := hpp
      rw [run_projectBodyM]
      exact ⟨rateQ_nonneg _ _, rateQ_le_100 _ _ (length_filter_and_le _ _ _)⟩

/-- Witness for the amended C1 at a concrete store. -/
theorem c1_rates_amended_witness :
    (0 ≤ (getProductivityStats storeC10 1 0).completionRate
      ∧ (getProductivityStats storeC10 1 0).completionRate ≤ 100)
    ∧ (∀ n : Nat, rateQ n 0 = 0)
    ∧ (∀ e ∈ (getProductivityStats storeC10 1 0).recentProductivity, 0 ≤ e.efficiency) :=
  ⟨(c1_rates_amended storeC10 1 0 ("2024-02")).1,
   (c1_rates_amended storeC10 1 0 ("2024-02")).2.2.2.2.2.2.2,
   (c1_rates_amended storeC10 1 0 ("2024-02")).2.2.2.2.1⟩

/-! ## Claim C7: the average completion time -/

/-- Store for the C7 counterexample: one completed task whose completion
took 5400 seconds = 1.5 hours. -/
def storeC7 : Store :=
  ⟨[⟨1, "t1", "completed", "low", none, some 5400, 1, none, none, 0⟩], [], []⟩

/-- Modelled from the spec (§4.3): the mean of `(completed_at -
created_at)` expressed in (exact, fractional) hours over the owner's
completed tasks with both timestamps, 0 when there are none. Reference
definition used to test the claim against the code. -/
def specAvgCompletionHours (s : Store) (uid : Nat) : ℚ :=
  let xs := s.tasks.filter
    (fun t => t.userId == uid && t.status == "completed" && t.completedAt.isSome)
  if xs.length = 0 then 0
  else (xs.map (fun t => ((t.completedAt.getD 0 - t.createdAt : Int) : ℚ) / 3600)).sum
        / (xs.length : ℚ)

/-- C7 counterexample: for a task completed 90 minutes after creation the
code averages MySQL `TIMESTAMPDIFF(HOUR, ...)`, i.e. whole truncated
hours, and reports 1.0, while the claimed mean of the hour differences is
1.5. -/
theorem c7_avg_counterexample :
    (getProductivityStats storeC7 1 0).avgCompletionTimeHours = 1
    ∧ specAvgCompletionHours storeC7 1 = 3 / 2 := by
  constructor
  · have h : (getProductivityStats storeC7 1 0).avgCompletionTimeHours
        = (([hoursTrunc 0 5400].sum : Int) : ℚ) / ((1 : Nat) : ℚ) := by
      rw [getProductivityStats_eq]
      rfl
    have ht : ([hoursTrunc 0 5400].sum : Int) = 1 := by decide
    rw [h, ht]
    norm_num
  · have h : specAvgCompletionHours storeC7 1
        = (((5400 : Int) : ℚ) / 3600 + 0) / ((1 : Nat) : ℚ) := rfl
    rw [h]
    norm_num

/-- The owner's completed tasks carrying a completion timestamp, phrased as
the spec does. -/
def completedWithTs (s : Store) (uid : Nat) : List Task :=
  s.tasks.filter
    (fun t => decide (t.userId = uid ∧ t.status = "completed" ∧ t.completedAt ≠ none))

/-- C7 (amended): `avgCompletionHours` is the mean of the whole-hour
truncated differences `TIMESTAMPDIFF(HOUR, created_at, completed_at)` over
the owner's completed tasks with a completion timestamp, and 0.0 — never
NaN or an error — when there are none. -/
theorem c7_avg_amended (s : Store) (uid : Nat) (now : Int) :
    (getProductivityStats s uid now).avgCompletionTimeHours
      = (if (completedWithTs s uid).length = 0 then 0
         else (((completedWithTs s uid).map
                  (fun t => hoursTrunc t.createdAt (t.completedAt.getD 0))).sum : ℚ)
              / ((completedWithTs s uid).length : ℚ)) := by
  have hfx : s.tasks.filter (fun t => t.userId == uid && t.status == "completed"
      && t.completedAt.isSome) = completedWithTs s uid := by
    refine List.filter_congr ?_
    intro t _
    rw [Bool.eq_iff_iff]
    simp [Option.isSome_iff_ne_none, and_assoc]
  rw [getProductivityStats_eq]
  show (if (s.tasks.filter (fun t => t.userId == uid && t.status == "completed"
      && t.completedAt.isSome)).length = 0 then (0 : ℚ)
    else (((s.tasks.filter (fun t => t.userId == uid && t.status == "completed"
      && t.completedAt.isSome)).map
        (fun t => hoursTrunc t.createdAt (t.completedAt.getD 0))).sum : ℚ)
      / ((s.tasks.filter (fun t => t.userId == uid && t.status == "completed"
          && t.completedAt.isSome)).length : ℚ)) = _
  rw [hfx]

/-! ## Claim C9: reports are read-only and idempotent -/

/-- C9: every report is a read-only function of the store — the session
state after each report equals the state before it — and repeating the
same report call with the same owner, parameters and current time on the
post-session state yields the identical result. -/
theorem c9_reports_read_only (s : Store) (uid : Nat)
    (daysStr weeksStr monthStr : String) (now : Int) :
    ((getOverviewM uid) s).2 = s
    ∧ ((getDailyStatsM uid daysStr now) s).2 = s
    ∧ ((getWeeklyStatsM uid weeksStr now) s).2 = s
    ∧ ((getProductivityStatsM uid now) s).2 = s
    ∧ ((getMonthlyReportM uid monthStr) s).2 = s
    ∧ getOverview ((getOverviewM uid) s).2 uid = getOverview s uid
    ∧ getDailyStats ((getDailyStatsM uid daysStr now) s).2 uid daysStr now
        = getDailyStats s uid daysStr now
    ∧ getWeeklyStats ((getWeeklyStatsM uid weeksStr now) s).2 uid weeksStr now
        = getWeeklyStats s uid weeksStr now
    ∧ getProductivityStats ((getProductivityStatsM uid now) s).2 uid now
        = getProductivityStats s uid now
    ∧ getMonthlyReport ((getMonthlyReportM uid monthStr) s).2 uid monthStr
        = getMonthlyReport s uid monthStr := by
  refine ⟨ro_getOverviewM uid s, ro_getDailyStatsM uid daysStr now s,
    ro_getWeeklyStatsM uid weeksStr now s, ro_getProductivityStatsM uid now s,
    ro_getMonthlyReportM uid monthStr s, ?_, ?_, ?_, ?_, ?_⟩
  · rw [ro_getOverviewM uid s]
  · rw [ro_getDailyStatsM uid daysStr now s]
  · rw [ro_getWeeklyStatsM uid weeksStr now s]
  · rw [ro_getProductivityStatsM uid now s]
  · rw [ro_getMonthlyReportM uid monthStr s]

end TaskStats
